import Mathlib

/-!
# Verification of the near-lake-supervisor stall monitor

A shallow embedding of `src/main.go`: the stall-detection state machine
driven by the polling loop in `main`, the dual-format metric fetch
(`queryBlockHeight` / `queryBlockHeightText`), the container restart wrapper
(`restartContainer`) and the configuration loader (`LoadConfig`).

Conventions of the embedding:
* Go `time.Time` / `time.Duration` values are modelled as `Nat` (a single
  linear clock; `time.Since(t)` at instant `now` is the truncated
  subtraction `now - t`, which agrees with Go on the monotone traces the
  theorems quantify over).
* External effects (HTTP requests, JSON decoding, the `docker restart`
  subprocess, viper) are oracle parameters: each call site receives the
  outcome the external world would have produced, and the embedded function
  computes exactly what the Go code does with that outcome.
* Block heights are `Int` (Go `int64`); metric values are parsed as `Rat`
  (Go `float64` decimal text) and truncated toward zero as Go's
  `int64(value)` conversion does.
-/

/-- `Config` from main.go lines 18-25.  Durations are in the abstract `Nat`
clock units described above. -/
structure Config where
  indexerURL : String
  queryInterval : Nat
  stallTimeout : Nat
  restartSleep : Nat
  containerName : String
  metricName : String
deriving DecidableEq

/-- The mutable loop state of `main` (lines 50-52): `lastBlockHeight`,
`lastProgressTime`, `isRestarting`. -/
structure MonitorState where
  lastBlockHeight : Int
  lastProgressTime : Nat
  isRestarting : Bool
deriving DecidableEq

/-- Outcome of one `queryBlockHeight` call as seen by the loop: either a
height or an error (line 73-74). -/
inductive FetchResult
  | ok (height : Int)
  | err
deriving DecidableEq

/-- Oracle for the `docker restart` subprocess inside `restartContainer`
(lines 214-218): the combined output on success, or an error message plus
combined output on non-zero exit / timeout. -/
inductive CmdOutcome
  | ok (output : String)
  | fail (errMsg : String) (output : String)
deriving DecidableEq

/-- `restartContainer` from main.go lines 204-221: fails immediately when no
container name is configured, otherwise reports the subprocess outcome. -/
def restartContainer (cfg : Config) (docker : CmdOutcome) : Except String Unit :=
  if cfg.containerName = "" then
    Except.error "container name not specified"
  else
    match docker with
    | CmdOutcome.ok _ => Except.ok ()
    | CmdOutcome.fail e out => Except.error ("docker restart failed: " ++ e ++ ", output: " ++ out)

/-- Observable result of one iteration of the polling loop: the updated
state, whether a fetch was attempted (false only in the cooldown-skip
branch), whether `restartContainer` was invoked, whether it succeeded, and
whether the height-decrease warning (line 122) was logged. -/
structure TickResult where
  state : MonitorState
  fetched : Bool
  attempted : Bool
  restarted : Bool
  warnedDecrease : Bool
deriving DecidableEq

/-- One iteration of the `for range ticker.C` loop of `main`
(main.go lines 67-126), at clock instant `now`, with the fetch outcome and
the `docker restart` oracle for the (at most one) `restartContainer` call. -/
def tick (cfg : Config) (s : MonitorState) (now : Nat) (fetch : FetchResult)
    (docker : CmdOutcome) : TickResult :=
  if s.isRestarting then
    -- lines 68-71: still in restart cooldown period, skip query
    { state := s, fetched := false, attempted := false, restarted := false,
      warnedDecrease := false }
  else
    match fetch with
    | FetchResult.err =>
      -- lines 74-92: query failed; restart if failing past the stall timeout
      if cfg.stallTimeout < now - s.lastProgressTime then
        match restartContainer cfg docker with
        | Except.error _ =>
          { state := s, fetched := true, attempted := true, restarted := false,
            warnedDecrease := false }
        | Except.ok _ =>
          { state := { s with isRestarting := true, lastProgressTime := now },
            fetched := true, attempted := true, restarted := true,
            warnedDecrease := false }
      else
        { state := s, fetched := true, attempted := false, restarted := false,
          warnedDecrease := false }
    | FetchResult.ok h =>
      if s.lastBlockHeight < h then
        -- lines 96-100: block height is progressing
        { state := { s with lastBlockHeight := h, lastProgressTime := now },
          fetched := true, attempted := false, restarted := false,
          warnedDecrease := false }
      else if h = s.lastBlockHeight then
        -- lines 101-119: block height is stalled
        if cfg.stallTimeout < now - s.lastProgressTime then
          match restartContainer cfg docker with
          | Except.error _ =>
            { state := s, fetched := true, attempted := true, restarted := false,
              warnedDecrease := false }
          | Except.ok _ =>
            { state := { s with isRestarting := true, lastProgressTime := now },
              fetched := true, attempted := true, restarted := true,
              warnedDecrease := false }
        else
          { state := s, fetched := true, attempted := false, restarted := false,
            warnedDecrease := false }
      else
        -- lines 120-125: block height decreased; warn and treat as progress
        { state := { s with lastBlockHeight := h, lastProgressTime := now },
          fetched := true, attempted := false, restarted := false,
          warnedDecrease := true }

/-- An event of a monitoring trace: either one loop iteration (with its
fetch outcome and restart oracle), or the firing of the cooldown goroutine
(lines 84-88 / 113-117) which clears `isRestarting`. -/
inductive Event
  | tick (now : Nat) (fetch : FetchResult) (docker : CmdOutcome)
  | expire
deriving DecidableEq

/-- Effect of one event on the monitor state.  The cooldown goroutine only
ever writes `isRestarting = false`. -/
def step (cfg : Config) (s : MonitorState) : Event → MonitorState
  | Event.tick now f d => (tick cfg s now f d).state
  | Event.expire => { s with isRestarting := false }

/-- Run a trace of events from a state. -/
def run (cfg : Config) (s : MonitorState) : List Event → MonitorState
  | [] => s
  | e :: rest => run cfg (step cfg s e) rest

/-- Clock instants of the ticks in a trace at which a restart was
successfully triggered (the `else` branches at lines 81-88 and 110-117). -/
def restartTimes (cfg : Config) (s : MonitorState) : List Event → List Nat
  | [] => []
  | Event.tick now f d :: rest =>
    (if (tick cfg s now f d).restarted then [now] else []) ++
      restartTimes cfg (step cfg s (Event.tick now f d)) rest
  | Event.expire :: rest => restartTimes cfg (step cfg s Event.expire) rest

/-- The loop state as initialised at main.go lines 50-52, with start
instant `t0`: sentinel height `-1`, `lastProgressTime = now`, not
restarting. -/
def initialState (t0 : Nat) : MonitorState :=
  { lastBlockHeight := -1, lastProgressTime := t0, isRestarting := false }

/-- The state immediately after a successful restart triggered at instant
`t0` while the height was `h`: `isRestarting` set, stall clock reset to
`t0` (lines 111-112), height untouched. -/
def postRestartState (h : Int) (t0 : Nat) : MonitorState :=
  { lastBlockHeight := h, lastProgressTime := t0, isRestarting := true }

/-- A trace is flat at height `h` when every tick's fetch succeeds with
exactly `h` (cooldown expiries may be interleaved). -/
def flatTicks (h : Int) : List Event → Bool
  | [] => true
  | Event.tick _ (FetchResult.ok h') _ :: rest => h' == h && flatTicks h rest
  | Event.tick _ FetchResult.err _ :: _ => false
  | Event.expire :: rest => flatTicks h rest

/-- A trace is progressive from `s` when it consists only of ticks whose
fetch succeeds with a height strictly above the height recorded in the
running state. -/
def progressiveB (cfg : Config) (s : MonitorState) : List Event → Bool
  | [] => true
  | Event.tick now (FetchResult.ok h) d :: rest =>
    decide (s.lastBlockHeight < h) &&
      progressiveB cfg (step cfg s (Event.tick now (FetchResult.ok h) d)) rest
  | _ :: _ => false

/-- Whether an event is the cooldown goroutine firing. -/
def isExpire : Event → Bool
  | Event.expire => true
  | _ => false

/-! ## The metric fetch (`queryBlockHeight`, main.go lines 129-202)

Go standard-library helpers are embedded as executable character-list
functions: `strings.Split(s, "\n")`, `strings.Fields` (whitespace runs),
`strings.HasPrefix`, and `strconv.ParseFloat` on its decimal grammar.  A
parsed float is kept as the exact scaled decimal `num / 10 ^ scale` — the
idealized decimal value; block heights are integral and well inside
`float64`'s exact range, so Go's subsequent `int64(value)` truncation
agrees with truncating this exact value. -/

/-- Decimal digits to a natural number. -/
def digitsToNat (ds : List Char) : Nat :=
  ds.foldl (fun a c => a * 10 + (c.toNat - 48)) 0

/-- An exact scaled decimal: the value `num / 10 ^ scale`. -/
structure Dec10 where
  num : Int
  scale : Nat
deriving DecidableEq

/-- Truncation of a scaled decimal toward zero, as Go's `int64(f)`
conversion of a nonnegative-power-of-ten quotient: `Int.tdiv` is
T-division, which rounds toward zero. -/
def goInt64 (v : Dec10) : Int :=
  Int.tdiv v.num ((10 : Int) ^ v.scale)

/-- `strconv.ParseFloat` on decimal input: `[+|-] digits [. digits]
[(e|E) [+|-] digits]`, at least one mantissa digit required, no trailing
garbage.  Returns the exact decimal value, `none` on a parse error. -/
def parseGoFloat (s : String) : Option Dec10 :=
  let cs := s.toList
  let signed : Int × List Char :=
    match cs with
    | '+' :: t => (1, t)
    | '-' :: t => (-1, t)
    | t => (1, t)
  let sgn := signed.1
  let cs1 := signed.2
  let intPart := cs1.takeWhile Char.isDigit
  let afterInt := cs1.drop intPart.length
  let fracSplit : List Char × List Char :=
    match afterInt with
    | '.' :: t => (t.takeWhile Char.isDigit, t.drop (t.takeWhile Char.isDigit).length)
    | t => ([], t)
  let fracPart := fracSplit.1
  let rest := fracSplit.2
  if intPart.isEmpty && fracPart.isEmpty then
    none
  else
    let mant : Int := sgn * (digitsToNat (intPart ++ fracPart) : Int)
    match rest with
    | [] => some { num := mant, scale := fracPart.length }
    | e :: t =>
      if e = 'e' ∨ e = 'E' then
        let esplit : Bool × List Char :=
          match t with
          | '+' :: u => (true, u)
          | '-' :: u => (false, u)
          | u => (true, u)
        let eds := esplit.2.takeWhile Char.isDigit
        if eds.isEmpty ∨ ¬ (esplit.2.drop eds.length).isEmpty then
          none
        else if esplit.1 then
          some { num := mant * (10 : Int) ^ digitsToNat eds, scale := fracPart.length }
        else
          some { num := mant, scale := fracPart.length + digitsToNat eds }
      else
        none

/-- Worker for `goSplitLines`: split at every newline, keeping empty
pieces, with the accumulated current piece reversed. -/
def splitLinesAux : List Char → List Char → List String
  | [], acc => [String.mk acc.reverse]
  | c :: cs, acc =>
    if c = '\n' then String.mk acc.reverse :: splitLinesAux cs []
    else splitLinesAux cs (c :: acc)

/-- `strings.Split(s, "\n")` (main.go line 186). -/
def goSplitLines (s : String) : List String :=
  splitLinesAux s.toList []

/-- Worker for `goFields`: collect maximal non-whitespace runs. -/
def fieldsAux : List Char → List Char → List String
  | [], acc => if acc.isEmpty then [] else [String.mk acc.reverse]
  | c :: cs, acc =>
    if c.isWhitespace then
      if acc.isEmpty then fieldsAux cs []
      else String.mk acc.reverse :: fieldsAux cs []
    else fieldsAux cs (c :: acc)

/-- `strings.Fields` (main.go line 190): split around runs of whitespace. -/
def goFields (s : String) : List String :=
  fieldsAux s.toList []

/-- `strings.HasPrefix` on character lists. -/
def hasPrefixChars : List Char → List Char → Bool
  | _, [] => true
  | [], _ :: _ => false
  | c :: cs, p :: ps => c == p && hasPrefixChars cs ps

/-- `strings.HasPrefix(line, m)` (main.go line 188). -/
def goStartsWith (line m : String) : Bool :=
  hasPrefixChars line.toList m.toList

/-- The `for _, line := range lines` loop of `queryBlockHeightText`
(main.go lines 187-199): the first line with the metric-name prefix whose
field list has a second, float-parsable entry yields the value; a matching
line failing either check is skipped (`continue`); if the loop ends, the
metric-not-found error of line 201 results. -/
def scanMetricLines (m : String) : List String → Except String Int
  | [] => Except.error ("metric " ++ m ++ " not found in response")
  | line :: rest =>
    if goStartsWith line m then
      match goFields line with
      | _ :: p1 :: _ =>
        match parseGoFloat p1 with
        | some q => Except.ok (goInt64 q)
        | none => scanMetricLines m rest
      | _ => scanMetricLines m rest
    else
      scanMetricLines m rest

/-- Oracle for the text-endpoint HTTP exchange of `queryBlockHeightText`:
transport error, body-read error after a response arrived, or a response
with status code and body. -/
inductive TextFetch
  | transportErr (e : String)
  | readErr (code : Nat) (e : String)
  | resp (code : Nat) (body : String)
deriving DecidableEq

/-- `queryBlockHeightText` from main.go lines 169-202. -/
def queryBlockHeightText (cfg : Config) (t : TextFetch) : Except String Int :=
  match t with
  | TextFetch.transportErr e => Except.error ("failed to fetch metrics: " ++ e)
  | TextFetch.readErr code e =>
    if code ≠ 200 then
      Except.error ("metrics endpoint returned status " ++ toString code)
    else
      Except.error ("failed to read response body: " ++ e)
  | TextFetch.resp code body =>
    if code ≠ 200 then
      Except.error ("metrics endpoint returned status " ++ toString code)
    else
      scanMetricLines cfg.metricName (goSplitLines body)

/-- One `interface{}` entry of a decoded `Value` array: a JSON string or
some other JSON value (for which the `.(string)` assertion fails). -/
inductive JsonVal
  | str (s : String)
  | nonStr
deriving DecidableEq

/-- One element of `data.result` in `PrometheusResponse` (main.go
lines 31-34). -/
structure PromSeries where
  metric : List (String × String)
  value : List JsonVal
deriving DecidableEq

/-- The `data` object of `PrometheusResponse` (main.go lines 29-35). -/
structure PromData where
  resultType : String
  result : List PromSeries
deriving DecidableEq

/-- `PrometheusResponse` from main.go lines 27-36. -/
structure PrometheusResponse where
  status : String
  data : PromData
deriving DecidableEq

/-- Oracle for the structured-query HTTP exchange of `queryBlockHeight`:
transport error, or a response with its status code and the result of JSON
decoding the body (`none` when undecodable). -/
inductive PromFetch
  | transportErr
  | resp (code : Nat) (decoded : Option PrometheusResponse)
deriving DecidableEq

/-- `promResp.Data.Result[0].Value[1].(string)` (main.go line 156): the
second entry of the first result's value array, provided it is a JSON
string.  (When the value array has fewer than two entries the Go indexing
would panic; no guarded execution reaches that shape, and the model maps it
to the fallback like the failed type assertion.) -/
def extractValueStr (r : PrometheusResponse) : Option String :=
  match r.data.result with
  | [] => none
  | x :: _ =>
    match x.value.get? 1 with
    | some (JsonVal.str s) => some s
    | _ => none

/-- `queryBlockHeight` from main.go lines 129-167: try the structured query
first and fall back to `queryBlockHeightText` on every structured-path
failure. -/
def queryBlockHeight (cfg : Config) (prom : PromFetch) (t : TextFetch) : Except String Int :=
  match prom with
  | PromFetch.transportErr => queryBlockHeightText cfg t
  | PromFetch.resp code decoded =>
    if code ≠ 200 then
      queryBlockHeightText cfg t
    else
      match decoded with
      | none => queryBlockHeightText cfg t
      | some r =>
        if r.status ≠ "success" ∨ r.data.result = [] then
          queryBlockHeightText cfg t
        else
          match extractValueStr r with
          | none => queryBlockHeightText cfg t
          | some s =>
            match parseGoFloat s with
            | none => queryBlockHeightText cfg t
            | some q => Except.ok (goInt64 q)

/-- The structured-path failure cases enumerated by the specification:
transport failure, non-success HTTP status, undecodable payload, top-level
status not "success", empty result set, or a value string that does not
parse as a float. -/
def promFailsListed : PromFetch → Prop
  | PromFetch.transportErr => True
  | PromFetch.resp _ none => True
  | PromFetch.resp code (some r) =>
    code ≠ 200 ∨ r.status ≠ "success" ∨ r.data.result = [] ∨
      (∃ s, extractValueStr r = some s ∧ parseGoFloat s = none)

/-- The amended text-scan selection policy, stated in the specification's
vocabulary: the value of the first prefix-matching line that has at least
two whitespace-delimited fields and whose second field parses as a float;
matching lines failing either check are skipped. -/
def firstGoodValue (m : String) : List String → Option Dec10
  | [] => none
  | line :: rest =>
    if goStartsWith line m then
      match goFields line with
      | _ :: p1 :: _ =>
        match parseGoFloat p1 with
        | some q => some q
        | none => firstGoodValue m rest
      | _ => firstGoodValue m rest
    else
      firstGoodValue m rest

/-! ## Configuration loading (`LoadConfig`, main.go lines 223-267)

viper is an external collaborator; its two fallible calls are oracles:
`readRes` is the outcome of `viper.ReadInConfig()` and `unmarshalRes` the
outcome of `viper.Unmarshal(&config)`.  `viper.GetString` for the three
duration keys is passed as the three string arguments, and Go's
`time.ParseDuration` is modelled on its decimal component grammar. -/

/-- Nanoseconds of one `time.ParseDuration` unit suffix. -/
def durUnitNs (u : String) : Option Nat :=
  if u = "ns" then some 1
  else if u = "us" then some 1000
  else if u = "ms" then some 1000000
  else if u = "s" then some 1000000000
  else if u = "m" then some 60000000000
  else if u = "h" then some 3600000000000
  else none

/-- Add two scaled decimals exactly (common power-of-ten denominator). -/
def dec10Add (a b : Dec10) : Dec10 :=
  if a.scale ≤ b.scale then
    { num := a.num * (10 : Int) ^ (b.scale - a.scale) + b.num, scale := b.scale }
  else
    { num := a.num + b.num * (10 : Int) ^ (a.scale - b.scale), scale := a.scale }

/-- Parse the leading decimal number (with optional fraction) of a
duration component; returns the value and the remaining characters. -/
def parseDurNumber (cs : List Char) : Option (Dec10 × List Char) :=
  let ip := cs.takeWhile Char.isDigit
  let rest := cs.drop ip.length
  match rest with
  | '.' :: t =>
    let fp := t.takeWhile Char.isDigit
    if ip.isEmpty && fp.isEmpty then none
    else some ({ num := (digitsToNat (ip ++ fp) : Int), scale := fp.length }, t.drop fp.length)
  | _ =>
    if ip.isEmpty then none else some ({ num := (digitsToNat ip : Int), scale := 0 }, rest)

/-- Parse the unit suffix of a duration component (the longest run of
non-digit, non-dot characters). -/
def parseDurUnit (cs : List Char) : Option (Nat × List Char) :=
  let us := cs.takeWhile (fun c => ¬ c.isDigit ∧ c ≠ '.')
  match durUnitNs (String.mk us) with
  | some n => some (n, cs.drop us.length)
  | none => none

/-- Fuelled loop over the `number unit` components of a duration string,
accumulating nanoseconds as an exact scaled decimal. -/
def parseDurLoop : Nat → List Char → Dec10 → Option Dec10
  | _, [], acc => some acc
  | 0, _ :: _, _ => none
  | fuel + 1, c :: cs, acc =>
    match parseDurNumber (c :: cs) with
    | none => none
    | some (v, rest) =>
      match parseDurUnit rest with
      | none => none
      | some (mult, rest2) =>
        parseDurLoop fuel rest2 (dec10Add acc { num := v.num * (mult : Int), scale := v.scale })

/-- `time.ParseDuration` on its decimal grammar, in nanoseconds.  Go also
accepts a leading sign and negative durations; the monitor's clock model is
nonnegative, so negative results are rejected here (no configuration the
claims exercise is negative). -/
def goParseDuration (s : String) : Option Nat :=
  let cs := s.toList
  let body : List Char :=
    match cs with
    | '-' :: t => t
    | '+' :: t => t
    | t => t
  let neg : Bool := match cs with | '-' :: _ => true | _ => false
  if String.mk body = "0" then some 0
  else
    match body with
    | [] => none
    | c :: t =>
      match parseDurLoop (cs.length + 1) (c :: t) { num := 0, scale := 0 } with
      | none => none
      | some q => if neg then none else some (goInt64 q).toNat

/-- One `if str := viper.GetString(key); str != "" { if d, err :=
time.ParseDuration(str); err == nil { field = d } }` block
(main.go lines 250-264). -/
def overrideDur (s : String) (cur : Nat) : Nat :=
  if s = "" then cur
  else
    match goParseDuration s with
    | some d => d
    | none => cur

/-- The `viper.SetDefault` values of main.go lines 229-234, durations in
nanoseconds. -/
def defaultConfig : Config :=
  { indexerURL := "http://indexer:3030"
    queryInterval := 30000000000
    stallTimeout := 300000000000
    restartSleep := 900000000000
    containerName := "near-lake-indexer"
    metricName := "near_indexer_streaming_current_block_height" }

/-- The default configuration with a 60-unit stall timeout, for the
concrete boundary scenarios. -/
def cfgSixty : Config :=
  { defaultConfig with stallTimeout := 60 }

/-- The default configuration with the container name unset, for the
configuration-error restart scenario. -/
def cfgNoContainer : Config :=
  { defaultConfig with stallTimeout := 60, containerName := "" }

/-- `LoadConfig` from main.go lines 223-267.  A `viper.ReadInConfig` error
— whatever its cause — is only logged ("Config file not found, using
defaults", lines 238-242) and never returned; the returned error is
exactly a `viper.Unmarshal` error (lines 244-247).  On success the three
duration fields are overridden from their string forms when parsable
(lines 250-264). -/
def LoadConfig (readRes : Except String Unit) (unmarshalRes : Except String Config)
    (queryIntervalStr stallTimeoutStr restartSleepStr : String) : Except String Config :=
  match readRes with
  | Except.error _ =>
    -- line 241: log only; fall through to Unmarshal exactly as on success
    loadAfterRead unmarshalRes queryIntervalStr stallTimeoutStr restartSleepStr
  | Except.ok _ =>
    loadAfterRead unmarshalRes queryIntervalStr stallTimeoutStr restartSleepStr
where
  loadAfterRead (unmarshalRes : Except String Config)
      (qiStr stStr rsStr : String) : Except String Config :=
    match unmarshalRes with
    | Except.error e => Except.error e
    | Except.ok c =>
      Except.ok { c with
        queryInterval := overrideDur qiStr c.queryInterval
        stallTimeout := overrideDur stStr c.stallTimeout
        restartSleep := overrideDur rsStr c.restartSleep }

/-! ## Helper lemmas about single ticks and traces -/

/-- During the cooldown the tick skips everything: no fetch, no restart
attempt, state untouched. -/
theorem tick_skip (cfg : Config) (s : MonitorState) (now : Nat) (f : FetchResult)
    (d : CmdOutcome) (hr : s.isRestarting = true) :
    tick cfg s now f d =
      { state := s, fetched := false, attempted := false, restarted := false,
        warnedDecrease := false } := by
  simp [tick, hr]

/-- A progressing tick (strictly larger height) records the new height and
instant and does nothing else. -/
theorem tick_progress (cfg : Config) (s : MonitorState) (now : Nat) (h : Int)
    (d : CmdOutcome) (hr : s.isRestarting = false) (hlt : s.lastBlockHeight < h) :
    tick cfg s now (FetchResult.ok h) d =
      { state := { s with lastBlockHeight := h, lastProgressTime := now },
        fetched := true, attempted := false, restarted := false,
        warnedDecrease := false } := by
  simp [tick, hr, hlt]

/-- A stalled tick within the timeout leaves the state untouched and does
not attempt a restart. -/
theorem tick_stalled_within (cfg : Config) (s : MonitorState) (now : Nat)
    (d : CmdOutcome) (hr : s.isRestarting = false)
    (hto : ¬ cfg.stallTimeout < now - s.lastProgressTime) :
    tick cfg s now (FetchResult.ok s.lastBlockHeight) d =
      { state := s, fetched := true, attempted := false, restarted := false,
        warnedDecrease := false } := by
  simp [tick, hr, hto]

/-- A tick observing a strictly smaller height takes the decrease branch:
it records the new height and instant, warns, and does not restart. -/
theorem tick_decrease (cfg : Config) (s : MonitorState) (now : Nat) (h : Int)
    (d : CmdOutcome) (hr : s.isRestarting = false) (hgt : h < s.lastBlockHeight) :
    tick cfg s now (FetchResult.ok h) d =
      { state := { s with lastBlockHeight := h, lastProgressTime := now },
        fetched := true, attempted := false, restarted := false,
        warnedDecrease := true } := by
  have h1 : ¬ s.lastBlockHeight < h := by omega
  have h2 : ¬ h = s.lastBlockHeight := by omega
  simp [tick, hr, h1, h2]

/-- While the cooldown flag is set, a trace containing no expiry event
triggers no restart at all. -/
theorem restartTimes_nil_of_restarting (cfg : Config) :
    ∀ (evs : List Event) (s : MonitorState), s.isRestarting = true →
      (∀ e ∈ evs, isExpire e = false) → restartTimes cfg s evs = [] := by
  intro evs
  induction evs with
  | nil => intro s _ _; rfl
  | cons e rest ih =>
    intro s hs hall
    match e with
    | Event.tick now f d =>
      have hskip := tick_skip cfg s now f d hs
      have hstep : step cfg s (Event.tick now f d) = s := by
        simp [step, hskip]
      simp only [restartTimes, hskip, hstep]
      simp only [Bool.false_eq_true, if_false, List.nil_append]
      exact ih s hs (fun e he => hall e (List.mem_cons_of_mem _ he))
    | Event.expire =>
      have := hall Event.expire (List.mem_cons_self _ _)
      simp [isExpire] at this

/-- Flat-trace lower bound: starting from any state that records height `h`
and whose stall clock is at least `t0`, every restart in a flat trace at
height `h` fires strictly later than `t0 + stallTimeout`. -/
theorem restartTimes_flat_lb (cfg : Config) (h : Int) (t0 : Nat) :
    ∀ (evs : List Event) (s : MonitorState), flatTicks h evs = true →
      s.lastBlockHeight = h → t0 ≤ s.lastProgressTime →
      ∀ t ∈ restartTimes cfg s evs, t0 + cfg.stallTimeout < t := by
  intro evs
  induction evs with
  | nil => intro s _ _ _ t ht; simp [restartTimes] at ht
  | cons e rest ih =>
    intro s hflat hh hlb t ht
    match e with
    | Event.expire =>
      simp only [flatTicks] at hflat
      simp only [restartTimes, step] at ht
      exact ih ({ s with isRestarting := false }) hflat hh hlb t ht
    | Event.tick now FetchResult.err d =>
      simp [flatTicks] at hflat
    | Event.tick now (FetchResult.ok h') d =>
      simp only [flatTicks, Bool.and_eq_true, beq_iff_eq] at hflat
      obtain ⟨hh', hrest⟩ := hflat
      subst hh'
      by_cases hr : s.isRestarting = true
      · have hskip := tick_skip cfg s now (FetchResult.ok h') d hr
        have hstep : step cfg s (Event.tick now (FetchResult.ok h') d) = s := by
          simp [step, hskip]
        simp only [restartTimes, hskip, hstep, Bool.false_eq_true, if_false,
          List.nil_append] at ht
        exact ih s hrest hh hlb t ht
      · have hr' : s.isRestarting = false := by
          simpa using hr
        subst hh
        by_cases hto : cfg.stallTimeout < now - s.lastProgressTime
        · match hrc : restartContainer cfg d with
          | Except.error e =>
            have htk : tick cfg s now (FetchResult.ok s.lastBlockHeight) d =
                { state := s, fetched := true, attempted := true,
                  restarted := false, warnedDecrease := false } := by
              simp [tick, hr', hto, hrc]
            have hstep : step cfg s (Event.tick now (FetchResult.ok s.lastBlockHeight) d) = s := by
              simp [step, htk]
            simp only [restartTimes, htk, hstep, Bool.false_eq_true, if_false,
              List.nil_append] at ht
            exact ih s hrest rfl hlb t ht
          | Except.ok u =>
            have htk : tick cfg s now (FetchResult.ok s.lastBlockHeight) d =
                { state := { s with isRestarting := true, lastProgressTime := now },
                  fetched := true, attempted := true, restarted := true,
                  warnedDecrease := false } := by
              simp [tick, hr', hto, hrc]
            have hstep : step cfg s (Event.tick now (FetchResult.ok s.lastBlockHeight) d) =
                { s with isRestarting := true, lastProgressTime := now } := by
              simp [step, htk]
            simp only [restartTimes, htk, hstep, if_true, List.cons_append,
              List.nil_append, List.mem_cons] at ht
            rcases ht with ht | ht
            · omega
            · exact ih ({ s with isRestarting := true, lastProgressTime := now })
                hrest rfl (by show t0 ≤ now; omega) t ht
        · have htk := tick_stalled_within cfg s now d hr' hto
          have hstep : step cfg s (Event.tick now (FetchResult.ok s.lastBlockHeight) d) = s := by
            simp [step, htk]
          simp only [restartTimes, htk, hstep, Bool.false_eq_true, if_false,
            List.nil_append] at ht
          exact ih s hrest rfl hlb t ht

/-- A progressive trace triggers no restart and never touches the cooldown
flag. -/
theorem progressive_no_restart (cfg : Config) :
    ∀ (evs : List Event) (s : MonitorState), progressiveB cfg s evs = true →
      restartTimes cfg s evs = [] ∧ (run cfg s evs).isRestarting = s.isRestarting := by
  intro evs
  induction evs with
  | nil => intro s _; exact ⟨rfl, rfl⟩
  | cons e rest ih =>
    intro s hp
    match e with
    | Event.expire => simp [progressiveB] at hp
    | Event.tick now FetchResult.err d => simp [progressiveB] at hp
    | Event.tick now (FetchResult.ok h) d =>
      simp only [progressiveB, Bool.and_eq_true, decide_eq_true_eq] at hp
      obtain ⟨hlt, hrest⟩ := hp
      by_cases hr : s.isRestarting = true
      · have hskip := tick_skip cfg s now (FetchResult.ok h) d hr
        have hstep : step cfg s (Event.tick now (FetchResult.ok h) d) = s := by
          simp [step, hskip]
        have := ih s (by rw [← hstep]; exact hrest)
        constructor
        · simp only [restartTimes, hskip, Bool.false_eq_true, if_false,
            List.nil_append, hstep]
          exact this.1
        · simp only [run, hstep]
          exact this.2
      · have hr' : s.isRestarting = false := by simpa using hr
        have htk := tick_progress cfg s now h d hr' hlt
        have hstep : step cfg s (Event.tick now (FetchResult.ok h) d) =
            { s with lastBlockHeight := h, lastProgressTime := now } := by
          simp [step, htk]
        have := ih ({ s with lastBlockHeight := h, lastProgressTime := now })
          (by rw [← hstep]; exact hrest)
        constructor
        · simp only [restartTimes, htk, Bool.false_eq_true, if_false,
            List.nil_append, hstep]
          exact this.1
        · simp only [run, hstep]
          rw [this.2]

/-! ## The claims -/

/-- Claim C1: a stalled flat height past the stall timeout with a working
restart command triggers a restart (which resets the stall clock to `now`),
and after a successful restart at instant `t0` (a) every restart in any
flat continuation fires strictly later than `t0 + stallTimeout` — in
particular the first post-cooldown tick does not re-restart merely because
the cooldown exceeded the stall timeout — and (b) no restart at all occurs
before the cooldown expiry event. -/
theorem C1_single_restart_per_stall :
    (∀ (cfg : Config) (s : MonitorState) (now : Nat) (h : Int) (d : CmdOutcome),
      s.isRestarting = false → s.lastBlockHeight = h →
      restartContainer cfg d = Except.ok () →
      cfg.stallTimeout < now - s.lastProgressTime →
      (tick cfg s now (FetchResult.ok h) d).restarted = true ∧
        (tick cfg s now (FetchResult.ok h) d).state.lastProgressTime = now)
    ∧ (∀ (cfg : Config) (h : Int) (t0 : Nat) (evs : List Event),
      flatTicks h evs = true →
      ∀ t ∈ restartTimes cfg (postRestartState h t0) evs, t0 + cfg.stallTimeout < t)
    ∧ (∀ (cfg : Config) (s : MonitorState) (evs : List Event),
      s.isRestarting = true →
      restartTimes cfg s (evs.takeWhile (fun e => ! isExpire e)) = []) := by
  refine ⟨?_, ?_, ?_⟩
  · intro cfg s now h d hr hh hrc hto
    subst hh
    constructor <;> simp [tick, hr, hto, hrc]
  · intro cfg h t0 evs hflat
    exact restartTimes_flat_lb cfg h t0 evs (postRestartState h t0) hflat rfl le_rfl
  · intro cfg s evs hs
    refine restartTimes_nil_of_restarting cfg _ s hs ?_
    intro e he
    have := List.mem_takeWhile_imp he
    simpa using this

/-- Witness for C1 at concrete inputs: a stalled tick past the timeout
restarts and resets the clock; after a restart at instant 5 with
`stallTimeout = 60`, the flat trace `[expire, tick 70]` restarts only at
70 > 5 + 60; and the prefix before the expiry restarts nowhere. -/
theorem C1_single_restart_per_stall_witness :
    ((tick cfgSixty
        { lastBlockHeight := 100, lastProgressTime := 0, isRestarting := false }
        61 (FetchResult.ok 100) (CmdOutcome.ok "")).restarted = true ∧
      (tick cfgSixty
        { lastBlockHeight := 100, lastProgressTime := 0, isRestarting := false }
        61 (FetchResult.ok 100) (CmdOutcome.ok "")).state.lastProgressTime = 61) ∧
    5 + cfgSixty.stallTimeout < 70 ∧
    restartTimes cfgSixty (postRestartState 100 5)
      ([Event.tick 70 (FetchResult.ok 100) (CmdOutcome.ok ""),
        Event.expire].takeWhile (fun e => ! isExpire e)) = [] :=
  ⟨C1_single_restart_per_stall.1 cfgSixty
      { lastBlockHeight := 100, lastProgressTime := 0, isRestarting := false }
      61 100 (CmdOutcome.ok "") rfl rfl rfl (by decide),
   C1_single_restart_per_stall.2.1 cfgSixty 100 5
      [Event.expire, Event.tick 70 (FetchResult.ok 100) (CmdOutcome.ok "")]
      (by decide) 70 (by decide),
   C1_single_restart_per_stall.2.2 cfgSixty (postRestartState 100 5)
      [Event.tick 70 (FetchResult.ok 100) (CmdOutcome.ok ""), Event.expire] rfl⟩

/-- Claim C2: while the cooldown flag is set a tick performs no fetch and
no restart attempt and changes nothing, whatever the fetch outcome or
restart oracle; and the only event that clears the flag is the cooldown
expiry. -/
theorem C2_cooldown_skip :
    (∀ (cfg : Config) (s : MonitorState) (now : Nat) (f : FetchResult) (d : CmdOutcome),
      s.isRestarting = true →
      tick cfg s now f d =
        { state := s, fetched := false, attempted := false, restarted := false,
          warnedDecrease := false })
    ∧ (∀ (cfg : Config) (s : MonitorState) (e : Event),
      s.isRestarting = true → (step cfg s e).isRestarting = false →
      e = Event.expire) := by
  constructor
  · exact tick_skip
  · intro cfg s e hs hcl
    match e with
    | Event.expire => rfl
    | Event.tick now f d =>
      have hskip := tick_skip cfg s now f d hs
      simp [step, hskip, hs] at hcl

/-- Witness for C2: during cooldown a tick that would otherwise qualify for
a restart (stalled far past the timeout, working restart command) is fully
skipped; and a tick event that leaves the flag cleared must be the expiry. -/
theorem C2_cooldown_skip_witness :
    tick cfgSixty (postRestartState 100 5) 999 (FetchResult.ok 100) (CmdOutcome.ok "") =
      { state := postRestartState 100 5, fetched := false, attempted := false,
        restarted := false, warnedDecrease := false } ∧
    Event.expire = Event.expire :=
  ⟨C2_cooldown_skip.1 cfgSixty (postRestartState 100 5) 999 (FetchResult.ok 100)
      (CmdOutcome.ok "") rfl,
   C2_cooldown_skip.2 cfgSixty (postRestartState 100 5) Event.expire rfl rfl⟩

/-- Claim C3 as stated is false on the code: with `stallTimeout = 60` and
heights `[100, 100, 100]` sampled at instants 30, 60, 90, the stall
duration at the third sample is exactly 60 = `stallTimeout`, the strict
comparison `stallDuration > stallTimeout` (main.go line 106) does not hold,
and no restart is triggered at (or anywhere in) the three-sample sequence —
the restart condition does not fire at stall duration equal to the
timeout. -/
theorem C3_boundary_cex :
    restartTimes cfgSixty (initialState 0)
      [Event.tick 30 (FetchResult.ok 100) (CmdOutcome.ok ""),
       Event.tick 60 (FetchResult.ok 100) (CmdOutcome.ok ""),
       Event.tick 90 (FetchResult.ok 100) (CmdOutcome.ok "")] = [] ∧
    90 - (run cfgSixty (initialState 0)
      [Event.tick 30 (FetchResult.ok 100) (CmdOutcome.ok ""),
       Event.tick 60 (FetchResult.ok 100) (CmdOutcome.ok "")]).lastProgressTime =
      cfgSixty.stallTimeout := by
  exact ⟨rfl, rfl⟩

/-- Claim C3, amended: with the `[100, 100, 100]` samples at 30, 60, 90 no
restart occurs after the second sample (duration 30 < 60) nor at the third
(duration 60 is not strictly greater than 60); a stalled tick restarts
exactly when the stall duration strictly exceeds `stallTimeout`, so a
fourth flat sample at instant 120 (duration 90) triggers the restart. -/
theorem C3_boundary_strict :
    restartTimes cfgSixty (initialState 0)
      [Event.tick 30 (FetchResult.ok 100) (CmdOutcome.ok ""),
       Event.tick 60 (FetchResult.ok 100) (CmdOutcome.ok ""),
       Event.tick 90 (FetchResult.ok 100) (CmdOutcome.ok ""),
       Event.tick 120 (FetchResult.ok 100) (CmdOutcome.ok "")] = [120] ∧
    (∀ (cfg : Config) (s : MonitorState) (now : Nat) (d : CmdOutcome),
      s.isRestarting = false → restartContainer cfg d = Except.ok () →
      ((tick cfg s now (FetchResult.ok s.lastBlockHeight) d).restarted = true ↔
        cfg.stallTimeout < now - s.lastProgressTime)) := by
  constructor
  · rfl
  · intro cfg s now d hr hrc
    constructor
    · intro hres
      by_contra hto
      rw [tick_stalled_within cfg s now d hr hto] at hres
      simp at hres
    · intro hto
      simp [tick, hr, hto, hrc]

/-- Witness for the amended C3 at a concrete input: at the third sample
(instant 90, last progress at 30) the stalled tick restarts iff
60 < 90 - 30, i.e. it does not. -/
theorem C3_boundary_strict_witness :
    (tick cfgSixty { lastBlockHeight := 100, lastProgressTime := 30, isRestarting := false }
        90 (FetchResult.ok 100) (CmdOutcome.ok "")).restarted = true ↔
      cfgSixty.stallTimeout < 90 - 30 :=
  C3_boundary_strict.2 cfgSixty
    { lastBlockHeight := 100, lastProgressTime := 30, isRestarting := false }
    90 (CmdOutcome.ok "") rfl rfl

/-- Claim C5: a tick whose restart attempt fails (for any reason, from
either the stalled path or the fetch-failure path) leaves the whole monitor
state — `lastHeight`, `lastProgressTime` and the cooldown flag — exactly as
it was, so no cooldown is entered and the next tick may retry; and the
stall clock is reset by a restart only when the restart succeeds. -/
theorem C5_failed_restart_keeps_state :
    (∀ (cfg : Config) (s : MonitorState) (now : Nat) (f : FetchResult) (d : CmdOutcome),
      (tick cfg s now f d).attempted = true → (tick cfg s now f d).restarted = false →
      (tick cfg s now f d).state = s)
    ∧ (∀ (cfg : Config) (s : MonitorState) (now : Nat) (f : FetchResult) (d : CmdOutcome),
      (tick cfg s now f d).restarted = true →
      (tick cfg s now f d).state =
        { s with isRestarting := true, lastProgressTime := now }) := by
  constructor
  · intro cfg s now f d hatt hres
    by_cases hr : s.isRestarting = true
    · rw [tick_skip cfg s now f d hr]
    · have hr' : s.isRestarting = false := by simpa using hr
      match f with
      | FetchResult.err =>
        by_cases hto : cfg.stallTimeout < now - s.lastProgressTime
        · match hrc : restartContainer cfg d with
          | Except.error e => simp [tick, hr', hto, hrc]
          | Except.ok u =>
            have : (tick cfg s now FetchResult.err d).restarted = true := by
              simp [tick, hr', hto, hrc]
            rw [this] at hres
            cases hres
        · simp [tick, hr', hto]
      | FetchResult.ok h =>
        rcases lt_trichotomy s.lastBlockHeight h with hlt | heq | hgt
        · rw [tick_progress cfg s now h d hr' hlt] at hatt
          cases hatt
        · subst heq
          by_cases hto : cfg.stallTimeout < now - s.lastProgressTime
          · match hrc : restartContainer cfg d with
            | Except.error e => simp [tick, hr', hto, hrc]
            | Except.ok u =>
              have : (tick cfg s now (FetchResult.ok s.lastBlockHeight) d).restarted = true := by
                simp [tick, hr', hto, hrc]
              rw [this] at hres
              cases hres
          · rw [tick_stalled_within cfg s now d hr' hto] at hatt
            cases hatt
        · rw [tick_decrease cfg s now h d hr' hgt] at hatt
          cases hatt
  · intro cfg s now f d hres
    by_cases hr : s.isRestarting = true
    · rw [tick_skip cfg s now f d hr] at hres
      cases hres
    · have hr' : s.isRestarting = false := by simpa using hr
      match f with
      | FetchResult.err =>
        by_cases hto : cfg.stallTimeout < now - s.lastProgressTime
        · match hrc : restartContainer cfg d with
          | Except.error e =>
            have : (tick cfg s now FetchResult.err d).restarted = false := by
              simp [tick, hr', hto, hrc]
            rw [this] at hres
            cases hres
          | Except.ok u => simp [tick, hr', hto, hrc]
        · have : (tick cfg s now FetchResult.err d).restarted = false := by
            simp [tick, hr', hto]
          rw [this] at hres
          cases hres
      | FetchResult.ok h =>
        rcases lt_trichotomy s.lastBlockHeight h with hlt | heq | hgt
        · rw [tick_progress cfg s now h d hr' hlt] at hres
          cases hres
        · subst heq
          by_cases hto : cfg.stallTimeout < now - s.lastProgressTime
          · match hrc : restartContainer cfg d with
            | Except.error e =>
              have : (tick cfg s now (FetchResult.ok s.lastBlockHeight) d).restarted = false := by
                simp [tick, hr', hto, hrc]
              rw [this] at hres
              cases hres
            | Except.ok u => simp [tick, hr', hto, hrc]
          · rw [tick_stalled_within cfg s now d hr' hto] at hres
            cases hres
        · rw [tick_decrease cfg s now h d hr' hgt] at hres
          cases hres

/-- Witness for C5: with the container name unset the restart attempt of a
long-stalled tick fails with the configuration error and the state is
untouched; with a working restart command the same tick succeeds and resets
the stall clock to the tick instant with the cooldown flag set. -/
theorem C5_failed_restart_keeps_state_witness :
    (tick cfgNoContainer
        { lastBlockHeight := 100, lastProgressTime := 0, isRestarting := false }
        61 (FetchResult.ok 100) (CmdOutcome.ok "")).state =
      { lastBlockHeight := 100, lastProgressTime := 0, isRestarting := false } ∧
    (tick cfgSixty
        { lastBlockHeight := 100, lastProgressTime := 0, isRestarting := false }
        61 (FetchResult.ok 100) (CmdOutcome.ok "")).state =
      { lastBlockHeight := 100, lastProgressTime := 61, isRestarting := true } :=
  ⟨C5_failed_restart_keeps_state.1 cfgNoContainer
      { lastBlockHeight := 100, lastProgressTime := 0, isRestarting := false }
      61 (FetchResult.ok 100) (CmdOutcome.ok "") rfl rfl,
   C5_failed_restart_keeps_state.2 cfgSixty
      { lastBlockHeight := 100, lastProgressTime := 0, isRestarting := false }
      61 (FetchResult.ok 100) (CmdOutcome.ok "") rfl⟩

/-- Claim C7: a trace in which every fetch succeeds with a height strictly
above the recorded one triggers no restart and leaves the cooldown flag
untouched. -/
theorem C7_progressing_no_restart :
    ∀ (cfg : Config) (evs : List Event) (s : MonitorState),
      progressiveB cfg s evs = true →
      restartTimes cfg s evs = [] ∧ (run cfg s evs).isRestarting = s.isRestarting :=
  progressive_no_restart

/-- Witness for C7: two strictly increasing samples from the initial state
trigger no restart. -/
theorem C7_progressing_no_restart_witness :
    restartTimes defaultConfig (initialState 0)
      [Event.tick 30 (FetchResult.ok 100) (CmdOutcome.ok ""),
       Event.tick 60 (FetchResult.ok 101) (CmdOutcome.ok "")] = [] ∧
    (run defaultConfig (initialState 0)
      [Event.tick 30 (FetchResult.ok 100) (CmdOutcome.ok ""),
       Event.tick 60 (FetchResult.ok 101) (CmdOutcome.ok "")]).isRestarting =
      (initialState 0).isRestarting :=
  C7_progressing_no_restart defaultConfig
    [Event.tick 30 (FetchResult.ok 100) (CmdOutcome.ok ""),
     Event.tick 60 (FetchResult.ok 101) (CmdOutcome.ok "")]
    (initialState 0) (by decide)

/-- Claim C8: a fetch of a strictly smaller height is absorbed as progress:
the tick records the lower height, resets the stall clock to `now`, emits
the decrease warning, and neither attempts nor triggers a restart. -/
theorem C8_decrease_absorbed :
    ∀ (cfg : Config) (s : MonitorState) (now : Nat) (h : Int) (d : CmdOutcome),
      s.isRestarting = false → h < s.lastBlockHeight →
      tick cfg s now (FetchResult.ok h) d =
        { state := { s with lastBlockHeight := h, lastProgressTime := now },
          fetched := true, attempted := false, restarted := false,
          warnedDecrease := true } :=
  fun cfg s now h d hr hgt => tick_decrease cfg s now h d hr hgt

/-- Witness for C8: a drop from height 100 to 50 at instant 30. -/
theorem C8_decrease_absorbed_witness :
    tick defaultConfig
      { lastBlockHeight := 100, lastProgressTime := 0, isRestarting := false }
      30 (FetchResult.ok 50) (CmdOutcome.ok "") =
      { state := { lastBlockHeight := 50, lastProgressTime := 30, isRestarting := false },
        fetched := true, attempted := false, restarted := false,
        warnedDecrease := true } :=
  C8_decrease_absorbed defaultConfig
    { lastBlockHeight := 100, lastProgressTime := 0, isRestarting := false }
    30 50 (CmdOutcome.ok "") rfl (by decide)

/-- Claim C10: the unknown initial state is the sentinel `lastHeight = -1`
(main.go line 50), so a first fetch counts as newly-known progress only
when its height is strictly above `-1`: a first fetch of exactly `-1` takes
the stalled branch and leaves the stall clock running, a first fetch below
`-1` takes the decrease branch with a warning, and only a first fetch above
`-1` takes the progress branch. -/
theorem C10_sentinel_initial_height :
    (∀ t0 : Nat, (initialState t0).lastBlockHeight = -1)
    ∧ (∀ (cfg : Config) (t0 now : Nat) (d : CmdOutcome),
      ¬ cfg.stallTimeout < now - t0 →
      tick cfg (initialState t0) now (FetchResult.ok (-1)) d =
        { state := initialState t0, fetched := true, attempted := false,
          restarted := false, warnedDecrease := false })
    ∧ (∀ (cfg : Config) (t0 now : Nat) (h : Int) (d : CmdOutcome),
      h < -1 →
      tick cfg (initialState t0) now (FetchResult.ok h) d =
        { state := { lastBlockHeight := h, lastProgressTime := now, isRestarting := false },
          fetched := true, attempted := false, restarted := false,
          warnedDecrease := true })
    ∧ (∀ (cfg : Config) (t0 now : Nat) (h : Int) (d : CmdOutcome),
      -1 < h →
      tick cfg (initialState t0) now (FetchResult.ok h) d =
        { state := { lastBlockHeight := h, lastProgressTime := now, isRestarting := false },
          fetched := true, attempted := false, restarted := false,
          warnedDecrease := false }) := by
  refine ⟨fun _ => rfl, ?_, ?_, ?_⟩
  · intro cfg t0 now d hto
    exact tick_stalled_within cfg (initialState t0) now d rfl hto
  · intro cfg t0 now h d hlt
    exact tick_decrease cfg (initialState t0) now h d rfl hlt
  · intro cfg t0 now h d hlt
    exact tick_progress cfg (initialState t0) now h d rfl hlt

/-- Witness for C10: with start instant 0 and the default 300-unit stall
timeout, a first fetch of `-1` at instant 30 leaves the state untouched, a
first fetch of `-2` takes the decrease branch, and a first fetch of `0`
takes the progress branch. -/
theorem C10_sentinel_initial_height_witness :
    (initialState 0).lastBlockHeight = -1 ∧
    tick defaultConfig (initialState 0) 30 (FetchResult.ok (-1)) (CmdOutcome.ok "") =
      { state := initialState 0, fetched := true, attempted := false,
        restarted := false, warnedDecrease := false } ∧
    tick defaultConfig (initialState 0) 30 (FetchResult.ok (-2)) (CmdOutcome.ok "") =
      { state := { lastBlockHeight := -2, lastProgressTime := 30, isRestarting := false },
        fetched := true, attempted := false, restarted := false,
        warnedDecrease := true } ∧
    tick defaultConfig (initialState 0) 30 (FetchResult.ok 0) (CmdOutcome.ok "") =
      { state := { lastBlockHeight := 0, lastProgressTime := 30, isRestarting := false },
        fetched := true, attempted := false, restarted := false,
        warnedDecrease := false } :=
  ⟨C10_sentinel_initial_height.1 0,
   C10_sentinel_initial_height.2.1 defaultConfig 0 30 (CmdOutcome.ok "") (by decide),
   C10_sentinel_initial_height.2.2.1 defaultConfig 0 30 (-2) (CmdOutcome.ok "") (by decide),
   C10_sentinel_initial_height.2.2.2 defaultConfig 0 30 0 (CmdOutcome.ok "") (by decide)⟩

/-- Claim C4 fails on the code: with metric name "m" and response body
"m\nm 42", the first prefix-matching line "m" has no second field, yet the
fetch does not fail — the loop's `continue` (main.go lines 190-197) moves
on to the later matching line and returns 42. -/
theorem C4_first_line_cex :
    goFields "m" = ["m"] ∧
    queryBlockHeightText { defaultConfig with metricName := "m" }
      (TextFetch.resp 200 "m\nm 42") = Except.ok 42 :=
  ⟨rfl, rfl⟩

/-- Claim C4, amended: the text-format fetch splits the body into lines and
returns the parsed second field of the first prefix-matching line that has
at least two whitespace-delimited fields and a float-parsable second field;
matching lines failing either check are skipped, so a later matching line
may supply the result, and the fetch fails only when no matching line
yields a value. -/
theorem C4_scan_amended :
    ∀ (cfg : Config) (body : String),
      queryBlockHeightText cfg (TextFetch.resp 200 body) =
        match firstGoodValue cfg.metricName (goSplitLines body) with
        | some q => Except.ok (goInt64 q)
        | none => Except.error ("metric " ++ cfg.metricName ++ " not found in response") := by
  intro cfg body
  have hq : queryBlockHeightText cfg (TextFetch.resp 200 body) =
      scanMetricLines cfg.metricName (goSplitLines body) := by
    simp [queryBlockHeightText]
  rw [hq]
  generalize goSplitLines body = lines
  induction lines with
  | nil => rfl
  | cons line rest ih =>
    by_cases hp : goStartsWith line cfg.metricName = true
    · rcases hgf : goFields line with _ | ⟨p0, _ | ⟨p1, ps⟩⟩
      · simp only [scanMetricLines, firstGoodValue, hgf, if_pos hp]
        exact ih
      · simp only [scanMetricLines, firstGoodValue, hgf, if_pos hp]
        exact ih
      · rcases hpf : parseGoFloat p1 with _ | q
        · simp only [scanMetricLines, firstGoodValue, hgf, hpf, if_pos hp]
          exact ih
        · simp only [scanMetricLines, firstGoodValue, hgf, hpf, if_pos hp]
    · simp only [scanMetricLines, firstGoodValue, if_neg hp]
      exact ih

/-- Claim C6: every structured-path failure enumerated by the spec —
transport failure, non-success HTTP status, undecodable payload, top-level
status not "success", empty result set, unparsable numeric value — falls
through to the text endpoint, so the overall result (including the error
when both paths fail) is exactly the text-format result. -/
theorem C6_structured_fallback :
    ∀ (cfg : Config) (prom : PromFetch) (t : TextFetch),
      promFailsListed prom →
      queryBlockHeight cfg prom t = queryBlockHeightText cfg t := by
  intro cfg prom t hfail
  match prom with
  | PromFetch.transportErr => rfl
  | PromFetch.resp code none =>
    by_cases hc : code = 200
    · subst hc
      rfl
    · simp [queryBlockHeight, hc]
  | PromFetch.resp code (some r) =>
    simp only [promFailsListed] at hfail
    by_cases hc : code = 200
    · subst hc
      have h200 : ¬ (200 : Nat) ≠ 200 := fun h => h rfl
      rcases hfail with hc' | hs | he | ⟨s, hex, hpf⟩
      · exact absurd rfl hc'
      · simp only [queryBlockHeight, if_neg h200]
        rw [if_pos (Or.inl hs)]
      · simp only [queryBlockHeight, if_neg h200]
        rw [if_pos (Or.inr he)]
      · simp only [queryBlockHeight, if_neg h200]
        by_cases hcond : r.status ≠ "success" ∨ r.data.result = []
        · rw [if_pos hcond]
        · rw [if_neg hcond, hex]
          simp [hpf]
    · simp [queryBlockHeight, hc]

/-- Witness for C6 at concrete inputs: the structured endpoint answers
HTTP 500 with an undecodable body while the text endpoint serves the
metric, and the fetch equals the text-format fetch. -/
theorem C6_structured_fallback_witness :
    queryBlockHeight defaultConfig (PromFetch.resp 500 none)
      (TextFetch.resp 200 "near_indexer_streaming_current_block_height 42.0") =
      queryBlockHeightText defaultConfig
        (TextFetch.resp 200 "near_indexer_streaming_current_block_height 42.0") :=
  C6_structured_fallback defaultConfig (PromFetch.resp 500 none)
    (TextFetch.resp 200 "near_indexer_streaming_current_block_height 42.0") trivial

/-- Claim C9 fails on the code: a present-but-malformed config file makes
`viper.ReadInConfig` return a parse error, which main.go lines 238-242 only
log ("Config file not found, using defaults") before continuing —
`LoadConfig` still succeeds with the defaulted configuration and the
process does not terminate at startup. -/
theorem C9_malformed_config_cex :
    LoadConfig
      (Except.error "While parsing config: yaml: did not find expected node content")
      (Except.ok defaultConfig) "" "" "" = Except.ok defaultConfig :=
  rfl

/-- Claim C9, amended: an error from reading the config file — whether the
file is missing or present but malformed — is non-fatal and defaults apply;
`LoadConfig` returns an error exactly when `viper.Unmarshal` fails, and
only that failure terminates the process at startup. -/
theorem C9_load_error_iff_unmarshal :
    ∀ (readRes : Except String Unit) (unmarshalRes : Except String Config)
      (qi st rs e : String),
      LoadConfig readRes unmarshalRes qi st rs = Except.error e ↔
        unmarshalRes = Except.error e := by
  intro readRes um qi st rs e
  cases readRes <;> cases um <;>
    simp [LoadConfig, LoadConfig.loadAfterRead]
